import Mathlib

/-!
Verification development for the ImageNet JAX workload and submission
(`workloads/imagenet/imagenet_jax/workload.py` and
`workloads/imagenet/imagenet_jax/submission.py`).

Numeric tensors are modelled over `ℚ` (exact arithmetic standing in for the
floating-point arrays of the source); the learning-rate schedule, which uses
the cosine function, is modelled over `ℝ`.  Replicated values (JAX pmap) are
modelled as functions `Fin R → α` for a fixed replica count `R`.
-/

namespace AlgoEff

/-- Substring match of the pattern against a prefix of the text, modelling the
start of a Python `in` check. -/
def matchesAt : List Char → List Char → Bool
  | [], _ => true
  | _ :: _, [] => false
  | p :: ps, c :: cs => p == c && matchesAt ps cs

/-- Occurrence of the pattern anywhere in the text. -/
def containsPat (p : List Char) : List Char → Bool
  | [] => matchesAt p []
  | c :: cs => matchesAt p (c :: cs) || containsPat p cs

/-- Python `needle in hay` on strings (substring containment). -/
def strIn (needle hay : String) : Bool := containsPat needle.toList hay.toList

/-- Model of a numeric array leaf: a shape together with its (flattened)
entries, entries over `ℚ`. -/
structure Tensor where
  shape : List ℕ
  vals : List ℚ
deriving DecidableEq, Repr

/-- Number of axes of a tensor, the `x.ndim` of the source. -/
def Tensor.ndim (t : Tensor) : ℕ := t.shape.length

/-- Model of `submission.get_batch_size`: the constant 128 for every workload
name (the argument is deleted by the source). -/
def get_batch_size (workload_name : String) : ℕ := 128

/-- Model of `spec.Hyperparamters` (field set as used by this submission);
the spelling follows the source. -/
structure Hyperparamters where
  learning_rate : ℝ
  momentum : ℝ
  l2 : ℚ
  warmup_epochs : ℕ
  num_epochs : ℕ

/-- Evaluation summary as produced by `eval_model` / consumed by
`has_reached_goal`: a record with an accuracy and a loss field. -/
structure EvalResult where
  accuracy : ℚ
  loss : ℚ
deriving DecidableEq, Repr

/-- Configuration of the input pipeline produced by
`input_pipeline.create_input_iter` as `_build_dataset` calls it: the dataset
name, batch size, normalization statistics, and the train/cache flags. -/
structure InputIterConfig where
  dataset : String
  batch_size : ℕ
  mean : List ℚ
  stddev : List ℚ
  train : Bool
  cache : Bool
deriving DecidableEq, Repr

/-- Model of the mutable `ImagenetWorkload` object: the lazily initialized
caches together with the fixed configuration fields set in `__init__`. -/
structure ImagenetWorkload where
  _eval_ds : Option InputIterConfig
  _param_shapes : Option (List (List ℕ))
  model_name : String
  dataset : String
  num_classes : ℕ
deriving DecidableEq, Repr

/-- The `ImagenetWorkload()` constructor: empty caches, and the fast-development
configuration selected in the source (`_ResNet1` on `imagenette`, 10 classes). -/
def ImagenetWorkload.init : ImagenetWorkload :=
  { _eval_ds := none
    _param_shapes := none
    model_name := "_ResNet1"
    dataset := "imagenette"
    num_classes := 10 }

/-- Model of the read-only `target_value` property: the constant 0.76. -/
def ImagenetWorkload.target_value (w : ImagenetWorkload) : ℚ := 76 / 100

/-- Model of `ImagenetWorkload.has_reached_goal`: strict comparison of the
summary's accuracy field against the target value. -/
def ImagenetWorkload.has_reached_goal (w : ImagenetWorkload) (eval_result : EvalResult) : Bool :=
  decide (eval_result.accuracy > w.target_value)

/-- Model of the `num_train_examples` property; a dataset matching neither
branch falls off the end of the Python method and yields `None`. -/
def ImagenetWorkload.num_train_examples (w : ImagenetWorkload) : Option ℕ :=
  if strIn "imagenet2012" w.dataset then some 1271167
  else if w.dataset = "imagenette" then some 9469
  else none

/-- Model of the `num_eval_examples` property. -/
def ImagenetWorkload.num_eval_examples (w : ImagenetWorkload) : Option ℕ :=
  if strIn "imagenet2012" w.dataset then some 100000
  else if w.dataset = "imagenette" then some 3925
  else none

/-- Model of the `train_mean` property. -/
def ImagenetWorkload.train_mean (w : ImagenetWorkload) : List ℚ :=
  [(485 / 1000) * 255, (456 / 1000) * 255, (406 / 1000) * 255]

/-- Model of the `train_stddev` property. -/
def ImagenetWorkload.train_stddev (w : ImagenetWorkload) : List ℚ :=
  [(229 / 1000) * 255, (224 / 1000) * 255, (225 / 1000) * 255]

/-- Model of `ImagenetWorkload._build_dataset`.  The replica count
`device_count` (the source's `jax.device_count()`) is passed explicitly.  The
source raises a `ValueError` when the batch size is not divisible by the
device count, and otherwise builds the input pipeline via
`input_pipeline.create_input_iter` with the workload's dataset, the given
batch size, the training normalization statistics, `train=True` and
`cache=False`.  Note that neither `data_rng`, `split` nor `data_dir` is
consulted. -/
def ImagenetWorkload._build_dataset (w : ImagenetWorkload) (device_count : ℕ)
    (data_rng : ℕ) (split : String) (data_dir : String) (batch_size : ℕ) :
    Except String InputIterConfig :=
  if batch_size % device_count > 0 then
    .error "Batch size must be divisible by the number of devices"
  else
    .ok { dataset := w.dataset
          batch_size := batch_size
          mean := w.train_mean
          stddev := w.train_stddev
          train := true
          cache := false }

/-- Model of `ImagenetWorkload.build_input_queue`: an iterator over the
dataset built by `_build_dataset` (the iterator is identified with its
pipeline configuration). -/
def ImagenetWorkload.build_input_queue (w : ImagenetWorkload) (device_count : ℕ)
    (data_rng : ℕ) (split : String) (data_dir : String) (batch_size : ℕ) :
    Except String InputIterConfig :=
  w._build_dataset device_count data_rng split data_dir batch_size

/-- Local constant `eval_batch_size = 200` of `ImagenetWorkload.eval_model`. -/
def eval_batch_size : ℕ := 200

/-- State threaded through the evaluation loop of `eval_model`: the position
of the dataset iterator, the list of per-batch metrics collected so far, and
the running `total_accuracy`. -/
structure EvalLoopState where
  iterPos : ℕ
  eval_metrics : List EvalResult
  total_accuracy : ℚ
deriving Repr

/-- The `for idx in range(num_batches)` loop of `eval_model`: each iteration
pulls the next batch from the iterator (advancing its position by one),
appends the replica-synchronized per-batch metrics, and accumulates the batch
accuracy.  `metricsOf i` is the metrics value produced for the batch at
iterator position `i`. -/
def evalLoop (metricsOf : ℕ → EvalResult) : ℕ → EvalLoopState → EvalLoopState
  | 0, st => st
  | n + 1, st =>
    evalLoop metricsOf n
      { iterPos := st.iterPos + 1
        eval_metrics := st.eval_metrics ++ [metricsOf st.iterPos]
        total_accuracy := st.total_accuracy + (metricsOf st.iterPos).accuracy }

/-- Batch consumption of `eval_model`: starting from a fresh iterator, the
loop runs for `num_eval_examples // eval_batch_size` iterations. -/
def ImagenetWorkload.eval_model_consume (w : ImagenetWorkload)
    (num_eval_examples : ℕ) (metricsOf : ℕ → EvalResult) : EvalLoopState :=
  evalLoop metricsOf (num_eval_examples / eval_batch_size) ⟨0, [], 0⟩

/-- Construction of the evaluation dataset inside `eval_model`: reused from
the `_eval_ds` cache when present, otherwise built by `_build_dataset` with
`split='test'` and the evaluation batch size. -/
def ImagenetWorkload.eval_model_ds (w : ImagenetWorkload) (device_count : ℕ)
    (data_rng : ℕ) (data_dir : String) : Except String InputIterConfig :=
  match w._eval_ds with
  | some ds => .ok ds
  | none => w._build_dataset device_count data_rng "test" data_dir eval_batch_size

/-- The evaluation loop advances the iterator by exactly one position per
iteration. -/
theorem evalLoop_iterPos (metricsOf : ℕ → EvalResult) :
    ∀ (n : ℕ) (st : EvalLoopState),
      (evalLoop metricsOf n st).iterPos = st.iterPos + n := by
  intro n
  induction n with
  | zero => intro st; simp [evalLoop]
  | succ k ih =>
      intro st
      simp only [evalLoop, ih]
      omega

/-- C3: for every evaluation summary, `has_reached_goal` is true iff the
summary's accuracy strictly exceeds the fixed target 0.76; accuracy exactly
0.76 yields false and 0.7601 yields true. -/
theorem has_reached_goal_iff_strict :
    (∀ (w : ImagenetWorkload) (er : EvalResult),
      w.has_reached_goal er = true ↔ er.accuracy > 76 / 100) ∧
    (∀ l : ℚ, ImagenetWorkload.init.has_reached_goal ⟨76 / 100, l⟩ = false) ∧
    (∀ l : ℚ, ImagenetWorkload.init.has_reached_goal ⟨7601 / 10000, l⟩ = true) := by
  refine ⟨fun w er => ?_, fun l => ?_, fun l => ?_⟩
  · simp [ImagenetWorkload.has_reached_goal, ImagenetWorkload.target_value]
  · simp [ImagenetWorkload.has_reached_goal, ImagenetWorkload.target_value]
  · simp [ImagenetWorkload.has_reached_goal, ImagenetWorkload.target_value]
    norm_num

/-- C4 counterexample: the evaluation batch size constant is 200 and the
training batch size is 128, so the evaluation batch size is NOT smaller than
the training batch size, contrary to the claim. -/
theorem eval_batch_size_not_smaller :
    eval_batch_size = 200 ∧ get_batch_size ("imagenet") = 128 ∧
    ¬ (eval_batch_size < get_batch_size ("imagenet")) := by
  refine ⟨rfl, rfl, ?_⟩
  decide

/-- C4 (amended): `eval_model` reads the held-out split in fixed-size batches
of the constant size 200 (which is larger than the training batch size 128),
consuming exactly `num_eval_examples / eval_batch_size` batches; the consumed
batches cover `(num_eval_examples / eval_batch_size) * eval_batch_size`
examples, and the remaining `num_eval_examples % eval_batch_size` trailing
examples are dropped, not padded. -/
theorem eval_model_consumes_floor_batches (w : ImagenetWorkload)
    (num_eval_examples : ℕ) (metricsOf : ℕ → EvalResult) :
    (w.eval_model_consume num_eval_examples metricsOf).iterPos =
      num_eval_examples / eval_batch_size ∧
    (w.eval_model_consume num_eval_examples metricsOf).iterPos * eval_batch_size ≤
      num_eval_examples ∧
    num_eval_examples -
      (w.eval_model_consume num_eval_examples metricsOf).iterPos * eval_batch_size =
      num_eval_examples % eval_batch_size ∧
    num_eval_examples % eval_batch_size < eval_batch_size ∧
    get_batch_size ("imagenet") < eval_batch_size ∧
    (∀ cfg, w._eval_ds = none →
      w.eval_model_ds 1 0 "/data" = .ok cfg → cfg.batch_size = eval_batch_size) := by
  have hpos : (w.eval_model_consume num_eval_examples metricsOf).iterPos =
      num_eval_examples / eval_batch_size := by
    simp [ImagenetWorkload.eval_model_consume, evalLoop_iterPos]
  refine ⟨hpos, ?_, ?_, ?_, ?_, ?_⟩
  · rw [hpos]; exact Nat.div_mul_le_self _ _
  · rw [hpos]; simp only [eval_batch_size]; omega
  · simp only [eval_batch_size]; omega
  · decide
  · intro cfg hds h
    simp [ImagenetWorkload.eval_model_ds, hds,
      ImagenetWorkload._build_dataset] at h
    split at h
    · exact absurd h (by simp)
    · cases h with
      | refl => rfl

/-- C4 witness: the theorem applied to the concrete `imagenette` workload,
whose 3925 evaluation examples yield 19 full batches of 200 with 125
trailing examples dropped. -/
theorem eval_model_consumes_floor_batches_witness :
    (ImagenetWorkload.init.eval_model_consume 3925
      (fun i => ⟨0, 0⟩)).iterPos = 3925 / eval_batch_size :=
  (eval_model_consumes_floor_batches ImagenetWorkload.init 3925 (fun i => ⟨0, 0⟩)).1

/-- C8: for a positive replica count, `build_input_queue` surfaces the
validation error exactly when the batch size is not evenly divisible by the
replica count, and builds the pipeline without error when it is. -/
theorem build_input_queue_validation (w : ImagenetWorkload)
    (device_count data_rng batch_size : ℕ) (split data_dir : String)
    (hdc : 0 < device_count) :
    (¬ device_count ∣ batch_size →
      w.build_input_queue device_count data_rng split data_dir batch_size =
        .error "Batch size must be divisible by the number of devices") ∧
    (device_count ∣ batch_size →
      w.build_input_queue device_count data_rng split data_dir batch_size =
        .ok { dataset := w.dataset
              batch_size := batch_size
              mean := w.train_mean
              stddev := w.train_stddev
              train := true
              cache := false }) := by
  constructor
  · intro hnd
    have hmod : batch_size % device_count ≠ 0 := fun h => hnd (Nat.dvd_of_mod_eq_zero h)
    simp [ImagenetWorkload.build_input_queue, ImagenetWorkload._build_dataset,
      Nat.pos_of_ne_zero, hmod, Nat.pos_iff_ne_zero]
  · intro hd
    obtain ⟨k, rfl⟩ := hd
    simp [ImagenetWorkload.build_input_queue, ImagenetWorkload._build_dataset,
      Nat.mul_mod_right]

/-- C8 witness: with 4 replicas, batch size 6 is rejected with the validation
error and batch size 8 is accepted. -/
theorem build_input_queue_validation_witness :
    ImagenetWorkload.init.build_input_queue 4 0 "train" "/data" 6 =
      .error "Batch size must be divisible by the number of devices" :=
  (build_input_queue_validation ImagenetWorkload.init 4 0 6 "train" "/data"
    (by decide)).1 (by decide)

/-- C10: the input pipeline built by `_build_dataset` — hence the iterator
returned by `build_input_queue`, and the evaluation dataset built inside
`eval_model` with `split='test'` — is the same for all values of the `split`
and `data_dir` arguments (neither is consulted), and every successfully
built pipeline is in training mode (`train = true`). -/
theorem build_dataset_ignores_split_dir (w : ImagenetWorkload)
    (device_count data_rng batch_size : ℕ) (s1 d1 s2 d2 : String) :
    (w._build_dataset device_count data_rng s1 d1 batch_size =
      w._build_dataset device_count data_rng s2 d2 batch_size) ∧
    (w.build_input_queue device_count data_rng s1 d1 batch_size =
      w.build_input_queue device_count data_rng s2 d2 batch_size) ∧
    (∀ cfg, w._build_dataset device_count data_rng s1 d1 batch_size = .ok cfg →
      cfg.train = true) ∧
    (w._eval_ds = none → ∀ dir : String,
      w.eval_model_ds device_count data_rng dir =
        w._build_dataset device_count data_rng s1 d1 eval_batch_size) := by
  refine ⟨rfl, rfl, ?_, ?_⟩
  · intro cfg h
    unfold ImagenetWorkload._build_dataset at h
    split at h
    · simp at h
    · simp only [Except.ok.injEq] at h
      rw [← h]
  · intro hds dir
    simp only [ImagenetWorkload.eval_model_ds, hds]
    rfl

/-- C10 witness: on the concrete workload, two pipelines built with different
split and data-dir arguments coincide. -/
theorem build_dataset_ignores_split_dir_witness :
    ImagenetWorkload.init._build_dataset 1 0 "train" "/a" 128 =
      ImagenetWorkload.init._build_dataset 1 0 "test" "/b" 128 :=
  (build_dataset_ignores_split_dir ImagenetWorkload.init 1 0 128
    "train" "/a" "test" "/b").1

/-- Abstract view of the workload as consumed by `update_params`: the number
of training examples and the batch-statistics synchronization operation over
an abstract model-state type. -/
structure WorkloadView (MS : Type) where
  num_train_examples : ℕ
  sync_batch_stats : MS → MS

/-- Model of `submission.update_params`: the pmapped training step produces
`(new_model_state, new_optimizer_state, new_params)` (abstracted as
`train_step`); afterwards, exactly when
`(global_step + 1) % steps_per_epoch = 0` with
`steps_per_epoch = num_train_examples / get_batch_size('imagenet')`, the
batch statistics of the new model state are synchronized across replicas.
The returned triple is `(new_optimizer_state, new_params, new_model_state)`
as in the source. -/
def update_params {MS O P : Type} (workload : WorkloadView MS)
    (train_step : Unit → MS × O × P) (global_step : ℕ) : O × P × MS :=
  let r := train_step ()
  let new_model_state := r.1
  let new_optimizer_state := r.2.1
  let new_params := r.2.2
  let steps_per_epoch := workload.num_train_examples / get_batch_size ("imagenet")
  let final_model_state :=
    if (global_step + 1) % steps_per_epoch = 0 then
      workload.sync_batch_stats new_model_state
    else new_model_state
  (new_optimizer_state, new_params, final_model_state)

/-- C1: `update_params` synchronizes batch statistics on the new model state
iff `(global_step + 1) % steps_per_epoch = 0` with
`steps_per_epoch = num_train_examples / batch_size`; for the workload with
9469 training examples and batch size 128, `steps_per_epoch = 73` and the
boundary fires at `global_step = 72` but not at `global_step = 71`. -/
theorem update_params_sync_boundary :
    (∀ (MS O P : Type) (w : WorkloadView MS) (ts : Unit → MS × O × P) (g : ℕ),
      (update_params w ts g).2.2 =
        if (g + 1) % (w.num_train_examples / get_batch_size ("imagenet")) = 0 then
          w.sync_batch_stats (ts ()).1
        else (ts ()).1) ∧
    ImagenetWorkload.init.num_train_examples = some 9469 ∧
    9469 / get_batch_size ("imagenet") = 73 ∧
    ((72 + 1) % 73 = 0 ∧ (71 + 1) % 73 ≠ 0) ∧
    (∀ (MS O P : Type) (w : WorkloadView MS) (ts : Unit → MS × O × P),
      w.num_train_examples = 9469 →
      (update_params w ts 72).2.2 = w.sync_batch_stats (ts ()).1 ∧
      (update_params w ts 71).2.2 = (ts ()).1) := by
  refine ⟨fun MS O P w ts g => rfl, by decide, by decide, ⟨by decide, by decide⟩,
    fun MS O P w ts hn => ?_⟩
  constructor
  · simp [update_params, hn, get_batch_size]
  · simp [update_params, hn, get_batch_size]

/-- C1 witness: with 9469 training examples, a model state of 5 produced by
the step is synchronized (here: incremented) at global step 72 but returned
untouched at global step 71. -/
theorem update_params_sync_boundary_witness :
    (update_params ⟨9469, fun s => s + 1⟩
      (fun _ => ((5 : ℕ), (0 : ℕ), (0 : ℕ))) 72).2.2 = 6 ∧
    (update_params ⟨9469, fun s => s + 1⟩
      (fun _ => ((5 : ℕ), (0 : ℕ), (0 : ℕ))) 71).2.2 = 5 := by
  have h := update_params_sync_boundary.2.2.2.2 ℕ ℕ ℕ ⟨9469, fun s => s + 1⟩
    (fun _ => (5, 0, 0)) rfl
  exact ⟨h.1.trans rfl, h.2.trans rfl⟩

/-- Shape tree of a parameter container, modelled as the list of leaf shapes
(the source's `jax.tree_map(lambda x: spec.ShapeTuple(x.shape), params)`). -/
def shapeTree (params : List Tensor) : List (List ℕ) := params.map Tensor.shape

/-- Model of the read-only `param_shapes` property: a `ValueError` when read
before `init_model_fn` has populated the cache, the cached tree otherwise. -/
def ImagenetWorkload.param_shapes (w : ImagenetWorkload) :
    Except String (List (List ℕ)) :=
  match w._param_shapes with
  | none => .error "This should not happen, workload.init_model_fn() should be called before workload.param_shapes!"
  | some s => .ok s

/-- Model of `init_model_fn`: initializes parameters and model state from the
rng (`initialized` abstracts `self.initialized(rng, model)` for the model
class looked up by name), populates the parameter-shape cache, and returns
the parameters and model state replicated across the `R` replicas.  The
updated workload object is returned explicitly (the source mutates `self`). -/
def ImagenetWorkload.init_model_fn {MS0 : Type} (w : ImagenetWorkload) (R : ℕ)
    (initialized : ℕ → List Tensor × MS0) (rng : ℕ) :
    ImagenetWorkload × (Fin R → List Tensor) × (Fin R → MS0) :=
  let pm := initialized rng
  let params := pm.1
  let model_state := pm.2
  let wNew := { w with _param_shapes := some (shapeTree params) }
  (wNew, fun _ => params, fun _ => model_state)

/-- C9: reading `param_shapes` on a workload whose cache is still unset (as
before `init_model_fn` has run) fails with the state error; after
`init_model_fn` has run it returns the shape tree populated during model
initialization, without error. -/
theorem param_shapes_state_error {MS0 : Type} (w : ImagenetWorkload)
    (R : ℕ) (initialized : ℕ → List Tensor × MS0) (rng : ℕ)
    (hfresh : w._param_shapes = none) :
    w.param_shapes = .error "This should not happen, workload.init_model_fn() should be called before workload.param_shapes!" ∧
    (w.init_model_fn R initialized rng).1.param_shapes =
      .ok (shapeTree (initialized rng).1) := by
  constructor
  · simp [ImagenetWorkload.param_shapes, hfresh]
  · simp [ImagenetWorkload.param_shapes, ImagenetWorkload.init_model_fn]

/-- C9 witness: the freshly constructed workload has an unset cache, so
reading `param_shapes` fails, and after `init_model_fn` it succeeds. -/
theorem param_shapes_state_error_witness :
    ImagenetWorkload.init.param_shapes = .error "This should not happen, workload.init_model_fn() should be called before workload.param_shapes!" ∧
    (ImagenetWorkload.init.init_model_fn 1
      (fun _ => ([⟨[2, 2], [1, 2, 3, 4]⟩], ())) 0).1.param_shapes =
      .ok [[2, 2]] :=
  param_shapes_state_error ImagenetWorkload.init 1
    (fun _ => ([⟨[2, 2], [1, 2, 3, 4]⟩], ())) 0 rfl

/-- Sum of squared entries of one tensor, the source's `jnp.sum(x ** 2)`. -/
def sumSquares (t : Tensor) : ℚ := (t.vals.map (fun x => x ^ 2)).sum

/-- The weight-penalty accumulator of `_loss_fn`:
`sum([jnp.sum(x ** 2) for x in weight_penalty_params if x.ndim > 1])`. -/
def weight_l2 (weight_penalty_params : List Tensor) : ℚ :=
  ((weight_penalty_params.filter (fun x => decide (1 < x.ndim))).map sumSquares).sum

/-- Model of the `_loss_fn` closure inside `pmapped_train_step`.  The forward
pass (`workload.model_fn` in training mode on the replica's shard, abstracted
as `model_fn`) yields logits and a new model state; the workload loss on the
shard (`workload.loss_fn(batch['label'], logits)`, abstracted as `loss_fn`)
is increased by the weight-decay penalty
`hyperparameters.l2 * 0.5 * weight_l2` over the leaves of
`variables['params']`, which are exactly the parameter leaves (the model
state contributes only the `batch_stats` key to `variables`). -/
def _loss_fn {Logits MS : Type} (model_fn : List Tensor → Logits × MS)
    (loss_fn : Logits → ℚ) (l2 : ℚ) (params : List Tensor) : ℚ × MS × Logits :=
  let fwd := model_fn params
  let logits := fwd.1
  let new_model_state := fwd.2
  let loss := loss_fn logits
  let weight_penalty_params := params
  let weight_penalty := l2 * (1 / 2) * weight_l2 weight_penalty_params
  (loss + weight_penalty, new_model_state, logits)

/-- C5: the total training loss is the workload loss on the shard plus
`l2 * 0.5 * sum(weight ** 2)` summed over exactly the parameter leaves of
rank greater than 1; a leaf of rank at most 1 (bias or scalar) contributes
nothing to the penalty, while a leaf of rank greater than 1 contributes its
sum of squares. -/
theorem loss_fn_weight_decay {Logits MS : Type}
    (model_fn : List Tensor → Logits × MS) (loss_fn : Logits → ℚ)
    (l2 : ℚ) (params : List Tensor) :
    (_loss_fn model_fn loss_fn l2 params).1 =
      loss_fn (model_fn params).1 +
        l2 * (1 / 2) *
          ((params.filter (fun x => decide (1 < x.ndim))).map sumSquares).sum ∧
    (∀ t : Tensor, t.ndim ≤ 1 → weight_l2 (params ++ [t]) = weight_l2 params) ∧
    (∀ t : Tensor, 1 < t.ndim →
      weight_l2 (params ++ [t]) = weight_l2 params + sumSquares t) := by
  refine ⟨rfl, fun t ht => ?_, fun t ht => ?_⟩
  · have hnd : ¬ (1 < t.ndim) := by omega
    simp [weight_l2, List.filter_append, hnd]
  · simp [weight_l2, List.filter_append, ht]

/-- C5 witness: with zero model loss, coefficient 1/100, a rank-2 leaf with
entries 1 and 2 and a rank-1 leaf with entry 5, the total loss is
`(1/100) * (1/2) * (1 + 4) = 1/40`; the rank-1 leaf is excluded. -/
theorem loss_fn_weight_decay_witness :
    (_loss_fn (fun p => ((0 : ℚ), ())) (fun l => l) (1 / 100)
      [⟨[2, 2], [1, 2]⟩, ⟨[3], [5]⟩]).1 = 1 / 40 := by
  have h := (loss_fn_weight_decay (fun p => ((0 : ℚ), ())) (fun l => l) (1 / 100)
    [⟨[2, 2], [1, 2]⟩, ⟨[3], [5]⟩]).1
  rw [h]
  norm_num [sumSquares, Tensor.ndim, List.filter]

/-- Arithmetic mean across replicas: `lax.pmean` over the pmap axis. -/
def pmean {G : Type} [AddCommMonoid G] [Module ℚ G] (R : ℕ) (xs : Fin R → G) : G :=
  ((R : ℚ)⁻¹) • ∑ i, xs i

/-- Auxiliary model state: the per-replica batch statistics together with the
remaining (non-averaged) entries of the state dictionary. -/
structure ModelAux (R : ℕ) (G B : Type) where
  batch_stats : Fin R → G
  rest : B

/-- Model of `ImagenetWorkload.sync_batch_stats`: every replica's batch
statistics are replaced by the arithmetic mean across replicas
(`jax.pmap(lambda x: lax.pmean(x, 'x'), 'x')` applied to
`model_state['batch_stats']`); the other entries of the state are kept
(`model_state.copy({'batch_stats': ...})`). -/
def sync_batch_stats {G B : Type} [AddCommMonoid G] [Module ℚ G] {R : ℕ}
    (model_state : ModelAux R G B) : ModelAux R G B :=
  { model_state with batch_stats := fun _ => pmean R model_state.batch_stats }

/-- Averaging a replica-constant family returns the constant. -/
theorem pmean_const {G : Type} [AddCommMonoid G] [Module ℚ G] {R : ℕ}
    (hR : 0 < R) (c : G) : pmean R (fun _ => c) = c := by
  have hcard : (Finset.univ : Finset (Fin R)).card = R := by
    simp [Finset.card_univ]
  have hne : (R : ℚ) ≠ 0 := by
    exact_mod_cast Nat.pos_iff_ne_zero.mp hR
  calc pmean R (fun _ => c) = ((R : ℚ)⁻¹) • ((R : ℕ) • c) := by
        simp [pmean, Finset.sum_const, hcard]
    _ = ((R : ℚ)⁻¹) • (((R : ℕ) : ℚ) • c) := by
        rw [Nat.cast_smul_eq_nsmul]
    _ = (((R : ℚ)⁻¹) * ((R : ℕ) : ℚ)) • c := by rw [smul_smul]
    _ = (1 : ℚ) • c := by rw [inv_mul_cancel₀ hne]
    _ = c := one_smul _ _

/-- C6: `sync_batch_stats` on an auxiliary state whose per-replica batch
statistics are already identical returns the state unchanged, and applying it
twice with no intervening training step equals applying it once. -/
theorem sync_batch_stats_idempotent {G B : Type} [AddCommMonoid G] [Module ℚ G]
    {R : ℕ} (hR : 0 < R) (s : ModelAux R G B) :
    ((∀ i j, s.batch_stats i = s.batch_stats j) → sync_batch_stats s = s) ∧
    sync_batch_stats (sync_batch_stats s) = sync_batch_stats s := by
  obtain ⟨bs, rest⟩ := s
  constructor
  · intro hid
    have hconst : bs = fun _ => bs ⟨0, hR⟩ := funext fun j => hid j ⟨0, hR⟩
    simp only [sync_batch_stats, ModelAux.mk.injEq, and_true]
    funext i
    calc pmean R bs = pmean R (fun _ => bs ⟨0, hR⟩) := by rw [← hconst]
      _ = bs ⟨0, hR⟩ := pmean_const hR _
      _ = bs i := hid ⟨0, hR⟩ i
  · simp only [sync_batch_stats, ModelAux.mk.injEq, and_true]
    funext i
    exact pmean_const hR (pmean R bs)

/-- C6 witness: with two replicas both holding batch statistic 3,
synchronization returns the state bit-identically. -/
theorem sync_batch_stats_idempotent_witness :
    sync_batch_stats (⟨fun _ => (3 : ℚ), ()⟩ : ModelAux 2 ℚ Unit) =
      ⟨fun _ => (3 : ℚ), ()⟩ :=
  (sync_batch_stats_idempotent (by decide)
    (⟨fun _ => (3 : ℚ), ()⟩ : ModelAux 2 ℚ Unit)).1 (fun i j => rfl)

/-- Backend functions a training step is built from: per-replica gradient
computation (gradient of `_loss_fn` with respect to the parameters, also
yielding the forward pass's new model state and logits, of which only the
state matters here), the optimizer update rule `opt_update_fn`, and
`optax.apply_updates`. -/
structure StepFns (P O M G S : Type) where
  gradFn : P → M → S → G × M
  optUpdate : G → O → P → G × O
  applyUpdates : P → G → P

/-- Model of `pmapped_train_step` across `R` replicas: every replica computes
the gradient of the total loss on its own shard (updating its local model
state), the gradients are averaged arithmetically across replicas
(`lax.pmean(grad, axis_name='batch')`) so that every replica holds the same
averaged gradient, and every replica applies the optimizer update to that
shared gradient, producing new parameters via `optax.apply_updates`.
Returns `(new_model_state, new_optimizer_state, updated_params)`
per replica. -/
def pmapped_train_step {P O M G S : Type} [AddCommMonoid G] [Module ℚ G]
    (R : ℕ) (fns : StepFns P O M G S)
    (model_state : Fin R → M) (optimizer_state : Fin R → O)
    (current_param_container : Fin R → P) (batch : Fin R → S) :
    (Fin R → M) × (Fin R → O) × (Fin R → P) :=
  let gm := fun i =>
    fns.gradFn (current_param_container i) (model_state i) (batch i)
  let grad := pmean R (fun i => (gm i).1)
  let upd := fun i =>
    fns.optUpdate grad (optimizer_state i) (current_param_container i)
  (fun i => (gm i).2,
   fun i => (upd i).2,
   fun i => fns.applyUpdates (current_param_container i) (upd i).1)

/-- Replicated training state threaded through successive steps. -/
structure RepState (R : ℕ) (P O M : Type) where
  params : Fin R → P
  opt : Fin R → O
  mstate : Fin R → M

/-- One training step, repackaging the result of `pmapped_train_step` as the
state for the next step (as `update_params` threads it). -/
def trainStep {P O M G S : Type} [AddCommMonoid G] [Module ℚ G]
    (R : ℕ) (fns : StepFns P O M G S) (batch : Fin R → S)
    (st : RepState R P O M) : RepState R P O M :=
  let r := pmapped_train_step R fns st.mstate st.opt st.params batch
  { params := r.2.2, opt := r.2.1, mstate := r.1 }

/-- Iterated training: `n` successive steps with per-step batches. -/
def trainSteps {P O M G S : Type} [AddCommMonoid G] [Module ℚ G]
    (R : ℕ) (fns : StepFns P O M G S) (batches : ℕ → Fin R → S) :
    ℕ → RepState R P O M → RepState R P O M
  | 0, st => st
  | n + 1, st => trainStep R fns (batches n) (trainSteps R fns batches n st)

/-- One step preserves replica-identity of parameters and optimizer state:
the averaged gradient is a single shared value, so identical inputs give
identical per-replica outputs. -/
theorem trainStep_preserves {P O M G S : Type} [AddCommMonoid G] [Module ℚ G]
    (R : ℕ) (fns : StepFns P O M G S) (batch : Fin R → S)
    (st : RepState R P O M)
    (hp : ∀ i j, st.params i = st.params j)
    (ho : ∀ i j, st.opt i = st.opt j) :
    (∀ i j, (trainStep R fns batch st).params i =
      (trainStep R fns batch st).params j) ∧
    (∀ i j, (trainStep R fns batch st).opt i =
      (trainStep R fns batch st).opt j) := by
  constructor
  · intro i j
    simp only [trainStep, pmapped_train_step]
    rw [hp i j, ho i j]
  · intro i j
    simp only [trainStep, pmapped_train_step]
    rw [hp i j, ho i j]

/-- C2: if parameters and optimizer state entering a training step are
identical across all `R` replicas, they are identical again after the step,
because each replica applies the same optimizer update to the arithmetic mean
of the per-replica gradients; iterating, the invariant holds after every
step, not just the first. -/
theorem train_step_replica_identical {P O M G S : Type}
    [AddCommMonoid G] [Module ℚ G]
    (R : ℕ) (fns : StepFns P O M G S) (batches : ℕ → Fin R → S)
    (st0 : RepState R P O M)
    (hp : ∀ i j, st0.params i = st0.params j)
    (ho : ∀ i j, st0.opt i = st0.opt j) :
    (∀ (st : RepState R P O M) (batch : Fin R → S),
      (∀ i j, st.params i = st.params j) → (∀ i j, st.opt i = st.opt j) →
      (∀ i j, (trainStep R fns batch st).params i =
        (trainStep R fns batch st).params j) ∧
      (∀ i j, (trainStep R fns batch st).opt i =
        (trainStep R fns batch st).opt j)) ∧
    (∀ n : ℕ,
      (∀ i j, (trainSteps R fns batches n st0).params i =
        (trainSteps R fns batches n st0).params j) ∧
      (∀ i j, (trainSteps R fns batches n st0).opt i =
        (trainSteps R fns batches n st0).opt j)) := by
  constructor
  · exact fun st batch hp1 ho1 => trainStep_preserves R fns batch st hp1 ho1
  · intro n
    induction n with
    | zero => exact ⟨hp, ho⟩
    | succ k ih =>
        exact trainStep_preserves R fns (batches k) _ ih.1 ih.2

/-- C2 witness: two replicas with shared initial parameters 1 and optimizer
state 0 but different shards and divergent model states still agree on
parameters after three steps. -/
theorem train_step_replica_identical_witness :
    (trainSteps 2
      (⟨fun p m s => (p * s, m + 1), fun g o p => (g + o, o + 1),
        fun p u => p - u⟩ : StepFns ℚ ℚ ℚ ℚ ℚ)
      (fun n i => ((i : ℕ) : ℚ) + (n : ℚ)) 3
      ⟨fun _ => 1, fun _ => 0, fun i => ((i : ℕ) : ℚ)⟩).params 0 =
    (trainSteps 2
      (⟨fun p m s => (p * s, m + 1), fun g o p => (g + o, o + 1),
        fun p u => p - u⟩ : StepFns ℚ ℚ ℚ ℚ ℚ)
      (fun n i => ((i : ℕ) : ℚ) + (n : ℚ)) 3
      ⟨fun _ => 1, fun _ => 0, fun i => ((i : ℕ) : ℚ)⟩).params 1 :=
  ((train_step_replica_identical 2
    (⟨fun p m s => (p * s, m + 1), fun g o p => (g + o, o + 1),
      fun p u => p - u⟩ : StepFns ℚ ℚ ℚ ℚ ℚ)
    (fun n i => ((i : ℕ) : ℚ) + (n : ℚ))
    ⟨fun _ => 1, fun _ => 0, fun i => ((i : ℕ) : ℚ)⟩
    (fun i j => rfl) (fun i j => rfl)).2 3).1 0 1

/-- Model of `optax.linear_schedule` (a polynomial schedule with power 1): a
non-positive `transition_steps` yields the constant `init_value`; otherwise
the count is clipped to `[0, transition_steps]` and the value is
`(init_value - end_value) * (1 - count / transition_steps) + end_value`. -/
noncomputable def linear_schedule (init_value end_value : ℝ)
    (transition_steps : ℕ) (count : ℕ) : ℝ :=
  if transition_steps = 0 then init_value
  else
    (init_value - end_value) *
      (1 - ((min count transition_steps : ℕ) : ℝ) / (transition_steps : ℝ)) +
      end_value

/-- Model of `optax.cosine_decay_schedule` with `alpha = 0`: the count is
clipped to `decay_steps` and the value is
`init_value * 0.5 * (1 + cos(pi * count / decay_steps))`. -/
noncomputable def cosine_decay_schedule (init_value : ℝ) (decay_steps : ℕ)
    (count : ℕ) : ℝ :=
  init_value *
    ((1 / 2) * (1 + Real.cos (Real.pi *
      ((min count decay_steps : ℕ) : ℝ) / (decay_steps : ℝ))))

/-- Model of `optax.join_schedules` with two schedules and one boundary:
below the boundary the first schedule applies; from the boundary on, the
second applies to the count shifted by the boundary. -/
def join_schedules2 (s1 s2 : ℕ → ℝ) (boundary : ℕ) (count : ℕ) : ℝ :=
  if count < boundary then s1 count else s2 (count - boundary)

/-- The scaled base learning rate of `create_learning_rate_fn`:
`hparams.learning_rate * get_batch_size('imagenet') / 256`. -/
noncomputable def base_learning_rate (h : Hyperparamters) : ℝ :=
  h.learning_rate * ((get_batch_size ("imagenet") : ℕ) : ℝ) / 256

/-- Model of `submission.create_learning_rate_fn`: a linear warmup from 0 to
the base rate over `warmup_epochs * steps_per_epoch` steps joined, at that
boundary, with a cosine decay over
`max(num_epochs - warmup_epochs, 1) * steps_per_epoch` steps. -/
noncomputable def create_learning_rate_fn (h : Hyperparamters)
    (steps_per_epoch : ℕ) (count : ℕ) : ℝ :=
  let warmup_fn := linear_schedule 0 (base_learning_rate h)
    (h.warmup_epochs * steps_per_epoch)
  let cosine_epochs := max (h.num_epochs - h.warmup_epochs) 1
  let cosine_fn := cosine_decay_schedule (base_learning_rate h)
    (cosine_epochs * steps_per_epoch)
  join_schedules2 warmup_fn cosine_fn (h.warmup_epochs * steps_per_epoch) count

/-- C7 counterexample: the hyperparameter configuration with
`learning_rate = 2`, `warmup_epochs = 0` and `num_epochs = 1` (at one step
per epoch) gives a schedule value of 1, not 0, at step 0 — so the claim does
not hold for all hyperparameter configurations. -/
theorem create_learning_rate_fn_nonzero_at_step_zero :
    create_learning_rate_fn ⟨2, 9 / 10, 1 / 10000, 0, 1⟩ 1 0 = 1 ∧
    (1 : ℝ) ≠ 0 := by
  constructor
  · simp only [create_learning_rate_fn, join_schedules2, cosine_decay_schedule,
      base_learning_rate, get_batch_size]
    norm_num [Real.cos_zero]
  · norm_num

/-- C7 (amended): for every hyperparameter configuration with a positive
warmup (`warmup_epochs ≥ 1`), strictly more total epochs than warmup epochs,
and at least one step per epoch, the schedule evaluates to 0 at step 0, rises
linearly (value `base * count / (warmup_epochs * steps_per_epoch)`) during
warmup, reaches the configured base rate exactly at step
`warmup_epochs * steps_per_epoch`, then follows the cosine decay shape and
reaches 0 at the final step `num_epochs * steps_per_epoch`. -/
theorem create_learning_rate_fn_shape (h : Hyperparamters)
    (steps_per_epoch : ℕ) (hspe : 0 < steps_per_epoch)
    (hw : 0 < h.warmup_epochs) (hn : h.warmup_epochs < h.num_epochs) :
    create_learning_rate_fn h steps_per_epoch 0 = 0 ∧
    (∀ count, count < h.warmup_epochs * steps_per_epoch →
      create_learning_rate_fn h steps_per_epoch count =
        base_learning_rate h * (count : ℝ) /
          ((h.warmup_epochs * steps_per_epoch : ℕ) : ℝ)) ∧
    create_learning_rate_fn h steps_per_epoch
      (h.warmup_epochs * steps_per_epoch) = base_learning_rate h ∧
    (∀ count, h.warmup_epochs * steps_per_epoch ≤ count →
      create_learning_rate_fn h steps_per_epoch count =
        base_learning_rate h * ((1 / 2) * (1 + Real.cos (Real.pi *
          ((min (count - h.warmup_epochs * steps_per_epoch)
            ((h.num_epochs - h.warmup_epochs) * steps_per_epoch) : ℕ) : ℝ) /
          (((h.num_epochs - h.warmup_epochs) * steps_per_epoch : ℕ) : ℝ))))) ∧
    create_learning_rate_fn h steps_per_epoch
      (h.num_epochs * steps_per_epoch) = 0 := by
  have hWpos : 0 < h.warmup_epochs * steps_per_epoch := Nat.mul_pos hw hspe
  have hEpos : 0 < h.num_epochs - h.warmup_epochs := by omega
  have hmax : max (h.num_epochs - h.warmup_epochs) 1 =
      h.num_epochs - h.warmup_epochs := Nat.max_eq_left hEpos
  have hD : 0 < (h.num_epochs - h.warmup_epochs) * steps_per_epoch :=
    Nat.mul_pos hEpos hspe
  refine ⟨?_, ?_, ?_, ?_, ?_⟩
  · simp only [create_learning_rate_fn, join_schedules2]
    rw [if_pos hWpos]
    simp only [linear_schedule]
    rw [if_neg (Nat.pos_iff_ne_zero.mp hWpos)]
    simp [Nat.zero_min]
  · intro count hc
    simp only [create_learning_rate_fn, join_schedules2]
    rw [if_pos hc]
    simp only [linear_schedule]
    rw [if_neg (Nat.pos_iff_ne_zero.mp hWpos),
      Nat.min_eq_left (Nat.le_of_lt hc)]
    ring
  · simp only [create_learning_rate_fn, join_schedules2]
    rw [if_neg (lt_irrefl _), Nat.sub_self]
    simp only [cosine_decay_schedule]
    rw [Nat.zero_min]
    norm_num [Real.cos_zero]
  · intro count hc
    simp only [create_learning_rate_fn, join_schedules2]
    rw [if_neg (Nat.not_lt.mpr hc)]
    simp only [cosine_decay_schedule, hmax]
  · have hle : h.warmup_epochs * steps_per_epoch ≤
        h.num_epochs * steps_per_epoch :=
      Nat.mul_le_mul_right _ (Nat.le_of_lt hn)
    have hsub : h.num_epochs * steps_per_epoch -
        h.warmup_epochs * steps_per_epoch =
        (h.num_epochs - h.warmup_epochs) * steps_per_epoch :=
      (Nat.sub_mul h.num_epochs h.warmup_epochs steps_per_epoch).symm
    have hDne : (((h.num_epochs - h.warmup_epochs) * steps_per_epoch : ℕ) : ℝ) ≠ 0 :=
      Nat.cast_ne_zero.mpr (Nat.pos_iff_ne_zero.mp hD)
    simp only [create_learning_rate_fn, join_schedules2]
    rw [if_neg (Nat.not_lt.mpr hle)]
    simp only [cosine_decay_schedule, hmax]
    rw [hsub, Nat.min_self, mul_div_assoc, div_self hDne, mul_one, Real.cos_pi]
    norm_num

/-- C7 witness: the amended shape theorem applied to the configuration with
`learning_rate = 1`, one warmup epoch out of two epochs, two steps per
epoch: the schedule value at step 0 is 0. -/
theorem create_learning_rate_fn_shape_witness :
    create_learning_rate_fn ⟨1, 9 / 10, 1 / 10000, 1, 2⟩ 2 0 = 0 :=
  (create_learning_rate_fn_shape ⟨1, 9 / 10, 1 / 10000, 1, 2⟩ 2
    (by decide) (by decide) (by decide)).1

end AlgoEff
